import Mathlib

/-!
Verification development for the `sitemap-generator` repository.

The repository contains three near-duplicated crawler variants:
`spider_sitemap.py` (called V1 below), `spider_sitemap_v2.py` (V2) and
`spider_doc.py`.  The claims under study concern the `WebCrawler` class of
V1 and V2: the dedup/record protocol (`process_found_link`, `process_url`),
the worker loop (`crawl_worker`), the sitemap entry rendering
(`append_to_sitemap`), the file framing (`_init_sitemap_file`,
`finalize_sitemap`) and the URL filter (`is_valid_url`,
`is_under_root_urls`).

The crawl is embedded as a sequential worklist algorithm: the single-worker
schedule of the thread pool (V2 in fact submits exactly one worker).  The
external collaborators (HTTP transport, URL parsing, link extraction,
relative-URL resolution) are parameters of the model, gathered in `Env`:
`fetch url = none` models a transport error (a raised exception),
`fetch url = some (status, hrefs)` models a response with its status code
and the hrefs extracted from the body by BeautifulSoup.
-/

set_option autoImplicit false
set_option linter.unusedVariables false

namespace SitemapGen

/-- External collaborators of the crawl engine: HTTP transport
(`requests.get`), the components returned by `urllib.parse.urlparse`, and
`urllib.parse.urljoin`. -/
structure Env where
  fetch : String → Option (Nat × List String)
  scheme : String → String
  netloc : String → String
  urljoin : String → String → String

/-- Run configuration of `WebCrawler.__init__`: the `base_urls` list and the
`recursive` flag.  In the source, `root_urls = set(base_urls)` and
`domain = urlparse(base_urls[0]).netloc`. -/
structure CrawlConfig where
  baseUrls : List String
  recursive : Bool

/-- The mutable state shared by the workers: `visited_urls`, `url_queue`,
the sequence of `append_to_sitemap` calls (`recorded`), the sequence of
`Error crawling ...` messages printed to stderr (`errors`), and the sequence
of URLs on which `requests.get` was invoked (`fetched`). -/
structure CrawlState where
  visited : List String
  queue : List String
  recorded : List String
  errors : List String
  fetched : List String
deriving Repr, DecidableEq

/-- `WebCrawler.is_valid_url`: `urlparse(url)` must yield a truthy (non-empty)
`scheme` and `netloc`. -/
def is_valid_url (env : Env) (url : String) : Bool :=
  decide (env.scheme url ≠ "") && decide (env.netloc url ≠ "")

/-- `WebCrawler.is_under_root_urls`: `any(url.startswith(root_url) for
root_url in self.base_urls)`. -/
def is_under_root_urls (baseUrls : List String) (url : String) : Bool :=
  baseUrls.any (fun root => root.data.isPrefixOf url.data)

/-- `WebCrawler.is_valid_link_to_crawl`: same netloc as the crawl domain,
under the root URLs, and not yet visited. -/
def is_valid_link_to_crawl (env : Env) (domain : String) (baseUrls : List String)
    (visited : List String) (full_url : String) : Bool :=
  decide (env.netloc full_url = domain) && is_under_root_urls baseUrls full_url
    && decide (full_url ∉ visited)

/-- `WebCrawler.should_process_links`: `self.recursive or url in self.root_urls`
(where `root_urls = set(base_urls)`). -/
def should_process_links (cfg : CrawlConfig) (url : String) : Bool :=
  cfg.recursive || decide (url ∈ cfg.baseUrls)

/-- `WebCrawler.process_found_link` (V1 and V2 are identical): under
`url_lock`, if the URL is not yet visited, add it to `visited_urls`, put it
on `url_queue` only when `recursive`, and call `append_to_sitemap`. -/
def process_found_link (cfg : CrawlConfig) (s : CrawlState) (full_url : String) :
    CrawlState :=
  if full_url ∈ s.visited then s
  else
    { s with
      visited := full_url :: s.visited
      queue := s.queue ++ (if cfg.recursive then [full_url] else [])
      recorded := s.recorded ++ [full_url] }

/-- The `for link in soup.find_all('a')` loop of `WebCrawler.process_url`:
skip falsy hrefs, resolve with `urljoin`, and hand links passing
`is_valid_link_to_crawl` to `process_found_link`. -/
def process_links (cfg : CrawlConfig) (env : Env) (domain : String)
    (pageUrl : String) : List String → CrawlState → CrawlState
  | [], s => s
  | href :: rest, s =>
    if href = "" then process_links cfg env domain pageUrl rest s
    else
      let full_url := env.urljoin pageUrl href
      let s' :=
        if is_valid_link_to_crawl env domain cfg.baseUrls s.visited full_url then
          process_found_link cfg s full_url
        else s
      process_links cfg env domain pageUrl rest s'

/-- `WebCrawler.process_url` of V1 (`spider_sitemap.py`): drop the URL unless
well-formed and under the roots; fetch it; on an exception print an error to
stderr; on a non-200 status return silently; on a 200 response call
`append_to_sitemap(url)` unconditionally, then process the page links when
`should_process_links` holds. -/
def process_url (cfg : CrawlConfig) (env : Env) (domain : String) (url : String)
    (s : CrawlState) : CrawlState :=
  if !(is_valid_url env url && is_under_root_urls cfg.baseUrls url) then s
  else
    let s1 := { s with fetched := s.fetched ++ [url] }
    match env.fetch url with
    | none => { s1 with errors := s1.errors ++ [url] }
    | some (status, links) =>
      if status ≠ 200 then s1
      else
        let s2 := { s1 with recorded := s1.recorded ++ [url] }
        if should_process_links cfg url then
          process_links cfg env domain url links s2
        else s2

/-- `WebCrawler.process_url` of V2 (`spider_sitemap_v2.py`): identical to V1
except that the record step is guarded: under `url_lock`, `append_to_sitemap`
is called only `if url not in self.visited_urls`. -/
def process_url_v2 (cfg : CrawlConfig) (env : Env) (domain : String)
    (url : String) (s : CrawlState) : CrawlState :=
  if !(is_valid_url env url && is_under_root_urls cfg.baseUrls url) then s
  else
    let s1 := { s with fetched := s.fetched ++ [url] }
    match env.fetch url with
    | none => { s1 with errors := s1.errors ++ [url] }
    | some (status, links) =>
      if status ≠ 200 then s1
      else
        let s2 :=
          if url ∈ s1.visited then s1
          else { s1 with recorded := s1.recorded ++ [url] }
        if should_process_links cfg url then
          process_links cfg env domain url links s2
        else s2

/-- The worker loop `WebCrawler.crawl_worker`, sequentialised: pop the head
of the queue and `process_url` it, until the queue stays empty (the `Empty`
timeout fires) or the fuel runs out. -/
def crawl_loop (cfg : CrawlConfig) (env : Env) (domain : String) :
    Nat → CrawlState → CrawlState
  | 0, s => s
  | fuel + 1, s =>
    match s.queue with
    | [] => s
    | url :: rest =>
      crawl_loop cfg env domain fuel (process_url cfg env domain url { s with queue := rest })

/-- `WebCrawler.crawl_parallel` of V1: seed `url_queue` and `visited_urls`
with the base URLs, then run the worker loop. -/
def crawl_parallel (cfg : CrawlConfig) (env : Env) (fuel : Nat) : CrawlState :=
  let domain := env.netloc (cfg.baseUrls.headD "")
  crawl_loop cfg env domain fuel
    { visited := cfg.baseUrls, queue := cfg.baseUrls,
      recorded := [], errors := [], fetched := [] }

/-- The result of `self.url_queue.get(timeout=1)` inside
`WebCrawler.crawl_worker`: either a URL, or the `Empty` exception after the
one-second timeout. -/
inductive PopResult where
  | got : String → PopResult
  | timedOut
deriving DecidableEq

/-- What one iteration of the `while True` loop of `WebCrawler.crawl_worker`
decides to do next. -/
inductive WorkerDecision where
  | continueWith : String → WorkerDecision
  | exitLoop
deriving DecidableEq

/-- One iteration of `WebCrawler.crawl_worker` (identical in V1 and V2).  The
global information a worker could consult before exiting — whether the queue
is non-empty again, and whether some other worker is mid-fetch — is passed
in, but the source consults neither: the `except Empty` branch is a bare
`break`. -/
def crawl_worker_step (pop : PopResult) (queueNonEmpty : Bool)
    (someWorkerMidFetch : Bool) : WorkerDecision :=
  match pop with
  | .got url => .continueWith url
  | .timedOut => .exitLoop

/-- One sitemap record: the four child elements written by
`append_to_sitemap`. -/
structure SitemapEntry where
  loc : String
  lastmod : String
  changefreq : String
  priority : String
deriving DecidableEq

/-- The UTF-8 encoding of one character, as its list of byte values.  Used to
model `urllib.parse.quote`, which percent-encodes the UTF-8 bytes. -/
def utf8Bytes (c : Char) : List Nat :=
  let n := c.toNat
  if n < 0x80 then [n]
  else if n < 0x800 then [0xC0 + n / 0x40, 0x80 + n % 0x40]
  else if n < 0x10000 then
    [0xE0 + n / 0x1000, 0x80 + (n / 0x40) % 0x40, 0x80 + n % 0x40]
  else
    [0xF0 + n / 0x40000, 0x80 + (n / 0x1000) % 0x40, 0x80 + (n / 0x40) % 0x40,
      0x80 + n % 0x40]

/-- Uppercase hexadecimal digit, as used by `urllib.parse.quote`. -/
def hexDigitChar (n : Nat) : Char :=
  if n < 10 then Char.ofNat (48 + n) else Char.ofNat (55 + n)

/-- The characters `urllib.parse.quote` never escapes: ASCII letters, digits
and `_.-~`. -/
def isAlwaysSafe (c : Char) : Bool :=
  (65 ≤ c.toNat && c.toNat ≤ 90) || (97 ≤ c.toNat && c.toNat ≤ 122) ||
    (48 ≤ c.toNat && c.toNat ≤ 57) || ['_', '.', '-', '~'].contains c

/-- `urllib.parse.quote` on one character: kept verbatim when always-safe or
in the `safe` set, otherwise each UTF-8 byte becomes a percent escape. -/
def quoteChar (safe : List Char) (c : Char) : List Char :=
  if isAlwaysSafe c || safe.contains c then [c]
  else
    (utf8Bytes c).foldr
      (fun b acc => '%' :: hexDigitChar (b / 16) :: hexDigitChar (b % 16) :: acc) []

/-- `urllib.parse.quote(s, safe)`, character by character. -/
def pythonQuote (safe : List Char) (s : String) : String :=
  ⟨s.data.foldr (fun c acc => quoteChar safe c ++ acc) []⟩

/-- The `safe` argument V2 passes to `quote`: the characters left
unescaped beyond the always-safe set. -/
def safeV2 : List Char := [':', '/', '?', '=', '&', '%']

/-- `WebCrawler.NAV_URLS` of V2: the fixed navigation allow-list. -/
def NAV_URLS : List String :=
  ["https://www.landui.com/",
   "https://www.landui.com/eve/activity",
   "https://www.landui.com/mart/",
   "https://www.landui.com/security/",
   "https://www.landui.com/customer/",
   "https://www.landui.com/cps/",
   "https://www.landui.com/docs/",
   "https://www.landui.com/help/aboutus.html"]

/-- `WebCrawler.append_to_sitemap` of V1 (`spider_sitemap.py`), as the entry
it writes.  The `today` argument models the wall-clock date at call time
(what `datetime.now` would format); the V1 body never consults the clock:
it writes the URL verbatim, the literal date `2012-12-01`, `daily` and the
literal priority `0.8`. -/
def append_to_sitemap (today : String) (url : String) : SitemapEntry :=
  { loc := url, lastmod := "2012-12-01", changefreq := "daily", priority := "0.8" }

/-- `WebCrawler.append_to_sitemap` of V2 (`spider_sitemap_v2.py`): the URL is
percent-encoded with `quote(url, safe)`, `lastmod` is the current
date, and priority is the string `1` for `NAV_URLS` members, else `0.8`. -/
def append_to_sitemap_v2 (today : String) (url : String) : SitemapEntry :=
  { loc := pythonQuote safeV2 url
    lastmod := today
    changefreq := "daily"
    priority := if url ∈ NAV_URLS then "1" else "0.8" }

/-- The two lines written once by `WebCrawler._init_sitemap_file`. -/
def xmlDecl : String := "<?xml version=\"1.0\" encoding=\"utf-8\"?>\n"

/-- The opening `urlset` tag line written by `_init_sitemap_file`. -/
def urlsetOpen : String :=
  "<urlset xmlns=\"http://www.sitemaps.org/schemas/sitemap/0.9\">\n"

/-- The footer appended by `WebCrawler.finalize_sitemap`. -/
def urlsetClose : String := "</urlset>"

/-- The text one `append_to_sitemap` call appends to the file (V1 and V2
write the same frame around the four fields). -/
def entryText (e : SitemapEntry) : String :=
  "    <url>\n        <loc>" ++ e.loc ++ "</loc>\n        <lastmod>" ++ e.lastmod
    ++ "</lastmod>\n        <changefreq>" ++ e.changefreq
    ++ "</changefreq>\n        <priority>" ++ e.priority ++ "</priority>\n    </url>\n"

/-- The complete V1 output file after `_init_sitemap_file`, one
`append_to_sitemap` call per recorded URL in order, and
`finalize_sitemap`. -/
def sitemap_file_v1 (today : String) (recorded : List String) : String :=
  xmlDecl ++ urlsetOpen
    ++ String.join (recorded.map (fun u => entryText (append_to_sitemap today u)))
    ++ urlsetClose

/-- Substring occurrence test over character lists. -/
def occursIn (needle : List Char) : List Char → Bool
  | [] => needle.isEmpty
  | c :: rest => needle.isPrefixOf (c :: rest) || occursIn needle rest

/-! ### Concrete crawl scenarios used by the claims -/

/-- Root URL of the demo host. -/
def urlR : String := "http://h/"

/-- Page A of the demo host. -/
def urlA : String := "http://h/a"

/-- Page B of the demo host. -/
def urlB : String := "http://h/b"

/-- Page C of the demo host. -/
def urlC : String := "http://h/c"

/-- Environment for the recursive double-record scenario: the root links to
page A, both fetches succeed with status 200. -/
def envC1 : Env :=
  { fetch := fun u => if u = urlR then some (200, [urlA]) else some (200, [])
    scheme := fun _ => "http"
    netloc := fun _ => "h"
    urljoin := fun _ href => href }

/-- Recursive crawl over the single root. -/
def cfgC1 : CrawlConfig := { baseUrls := [urlR], recursive := true }

/-- Environment for the one-level scenario: the root links to A and B, and A
links to C; all fetches succeed. -/
def envC2 : Env :=
  { fetch := fun u =>
      if u = urlR then some (200, [urlA, urlB])
      else if u = urlA then some (200, [urlC])
      else some (200, [])
    scheme := fun _ => "http"
    netloc := fun _ => "h"
    urljoin := fun _ href => href }

/-- Non-recursive crawl over the single root. -/
def cfgC2 : CrawlConfig := { baseUrls := [urlR], recursive := false }

end SitemapGen

namespace SitemapGen

/-- C1: the claim says every URL claimed by exactly one worker is recorded
exactly once, regardless of the recursive flag.  The V1 code violates this:
in a recursive run where the root links to page A, A is claimed exactly once
(it enters `visited_urls` once, in `process_found_link`), yet
`append_to_sitemap` receives A twice — once at discovery in
`process_found_link` and once more after its own successful fetch in
`process_url`. -/
theorem c1_record_called_twice :
    (crawl_parallel cfgC1 envC1 10).recorded = [urlR, urlA, urlA]
      ∧ (crawl_parallel cfgC1 envC1 10).recorded.count urlA = 2
      ∧ (crawl_parallel cfgC1 envC1 10).visited.count urlA = 1 := by
  decide

/-- C2: in non-recursive mode, on the graph where the root links to A and B
and A links to C, the crawl over the single root records exactly the
sequence root, A, B, and C is never discovered, recorded or fetched. -/
theorem c2_nonrecursive_one_level :
    envC2.fetch urlA = some (200, [urlC])
      ∧ (crawl_parallel cfgC2 envC2 10).recorded = [urlR, urlA, urlB]
      ∧ urlC ∉ (crawl_parallel cfgC2 envC2 10).visited
      ∧ urlC ∉ (crawl_parallel cfgC2 envC2 10).recorded
      ∧ urlC ∉ (crawl_parallel cfgC2 envC2 10).fetched := by
  refine ⟨rfl, by decide, by decide, by decide, by decide⟩

/-- C3 (counterexample): the claim says that on a pop timeout the worker
re-checks whether any work is outstanding (queue non-empty or some worker
mid-fetch) before exiting.  In the code the `except Empty` branch is a bare
`break`: the worker exits even when both indicators are true. -/
theorem c3_counterexample :
    ¬ ∀ (queueNonEmpty someWorkerMidFetch : Bool),
        (queueNonEmpty || someWorkerMidFetch) = true →
        crawl_worker_step PopResult.timedOut queueNonEmpty someWorkerMidFetch ≠
          WorkerDecision.exitLoop := by
  decide

/-- C3 (amended): on a pop timeout the worker exits unconditionally — the
exit decision is independent of the queue state and of whether any worker is
still mid-fetch; no outstanding-work condition is re-checked. -/
theorem c3_timeout_exit_unconditional :
    ∀ (queueNonEmpty someWorkerMidFetch : Bool),
      crawl_worker_step PopResult.timedOut queueNonEmpty someWorkerMidFetch =
        WorkerDecision.exitLoop := by
  decide

/-- C4 (counterexample): the claim says `lastmod` is the wall-clock date at
record time.  The V1 `append_to_sitemap` writes the fixed literal
`2012-12-01`: recording when the wall-clock date is `2026-10-12` still
writes a different date. -/
theorem c4_counterexample :
    (append_to_sitemap "2026-10-12" "https://www.landui.com/docs/").lastmod ≠
      "2026-10-12" := by
  decide

/-- C4 (amended): in V2 the `lastmod` field is the wall-clock date at record
time; in V1 it is the fixed literal `2012-12-01` for every entry. -/
theorem c4_amended :
    (∀ today url, (append_to_sitemap_v2 today url).lastmod = today)
      ∧ ∀ today url, (append_to_sitemap today url).lastmod = "2012-12-01" :=
  ⟨fun _ _ => rfl, fun _ _ => rfl⟩

/-- C5 (counterexample): the claim says priority is `1.0` for allow-list
members and `0.8` otherwise.  The landing URL is in `NAV_URLS`, yet V1
writes `0.8` for it (V1 has no allow-list at all), and V2 writes the string
`1`, not `1.0`. -/
theorem c5_counterexample :
    "https://www.landui.com/" ∈ NAV_URLS
      ∧ (append_to_sitemap "2026-10-12" "https://www.landui.com/").priority = "0.8"
      ∧ (append_to_sitemap_v2 "2026-10-12" "https://www.landui.com/").priority = "1"
      ∧ ("0.8" : String) ≠ "1.0" ∧ ("1" : String) ≠ "1.0" := by
  decide

/-- C5 (amended): in V2 the priority written is the string `1` (the decimal
rendered without a fractional part) for URLs in the fixed `NAV_URLS`
allow-list and `0.8` otherwise; in V1 the priority is `0.8` for every URL,
allow-list member or not. -/
theorem c5_amended :
    (∀ today url, (append_to_sitemap_v2 today url).priority =
        if url ∈ NAV_URLS then "1" else "0.8")
      ∧ (∀ today url, (append_to_sitemap today url).priority = "0.8")
      ∧ (append_to_sitemap_v2 "2026-10-12" "https://www.landui.com/docs/").priority = "1"
      ∧ (append_to_sitemap_v2 "2026-10-12" "https://www.landui.com/docs/x").priority
          = "0.8" := by
  refine ⟨fun _ _ => rfl, fun _ _ => rfl, by decide, by decide⟩

/-- C6 (counterexample): the claim says the text inside `loc` is the URL
percent-encoded.  V1 writes the URL verbatim: for a URL containing a space,
the written `loc` differs from its percent-encoding. -/
theorem c6_counterexample :
    (append_to_sitemap "2026-10-12" "http://h/a b").loc = "http://h/a b"
      ∧ pythonQuote safeV2 "http://h/a b" = "http://h/a%20b"
      ∧ (append_to_sitemap "2026-10-12" "http://h/a b").loc ≠
          pythonQuote safeV2 "http://h/a b" := by
  refine ⟨rfl, by decide, by decide⟩

/-- C6 (amended): in V2 the `loc` text is the URL percent-encoded by
`quote` with `:/?=&%` unescaped — every character of that safe set is kept
verbatim, non-ASCII characters become uppercase percent escapes of their
UTF-8 bytes (shown on a concrete URL with a CJK character, a space and all
six safe characters); in V1 the `loc` text is the raw URL, unencoded. -/
theorem c6_amended :
    (∀ today url, (append_to_sitemap_v2 today url).loc = pythonQuote safeV2 url)
      ∧ (∀ today url, (append_to_sitemap today url).loc = url)
      ∧ safeV2.all (fun c => quoteChar safeV2 c == [c]) = true
      ∧ pythonQuote safeV2 "http://h/中 b?q=1&x=2%3" = "http://h/%E4%B8%AD%20b?q=1&x=2%3" := by
  refine ⟨fun _ _ => rfl, fun _ _ => rfl, by decide, by decide⟩

/-- C7: `is_under_root_urls` is true exactly when some root string is a
literal character-level prefix of the URL, and in particular a root ending
in `help` matches a URL continuing with `help2`. -/
theorem c7_in_scope_iff :
    (∀ (baseUrls : List String) (url : String),
        is_under_root_urls baseUrls url = true ↔
          ∃ r ∈ baseUrls, r.data <+: url.data)
      ∧ is_under_root_urls ["https://www.landui.com/help"]
          "https://www.landui.com/help2/x" = true := by
  constructor
  · intro baseUrls url
    simp [is_under_root_urls, List.any_eq_true]
  · decide

/-- Environment in which every fetch raises a transport error. -/
def envTransErr : Env :=
  { fetch := fun _ => none
    scheme := fun _ => "http"
    netloc := fun _ => "h"
    urljoin := fun _ href => href }

/-- Environment in which every fetch returns HTTP 500 with an empty body. -/
def envFail500 : Env :=
  { fetch := fun _ => some (500, [])
    scheme := fun _ => "http"
    netloc := fun _ => "h"
    urljoin := fun _ href => href }

/-- Environment in which every fetch returns HTTP 404 with an empty body. -/
def envFail404 : Env :=
  { fetch := fun _ => some (404, [])
    scheme := fun _ => "http"
    netloc := fun _ => "h"
    urljoin := fun _ href => href }

/-- A worker state with the root already claimed, before any processing. -/
def stW : CrawlState :=
  { visited := [urlR], queue := [], recorded := [], errors := [], fetched := [] }

/-- C8 (counterexample): the claim says a non-200 fetch is logged to the
diagnostic stream.  Crawling a root whose fetch returns 404 attempts the
fetch and abandons the URL, but the error stream receives nothing. -/
theorem c8_counterexample :
    envFail404.fetch urlR = some (404, [])
      ∧ (crawl_parallel cfgC2 envFail404 5).fetched = [urlR]
      ∧ (crawl_parallel cfgC2 envFail404 5).errors = []
      ∧ (crawl_parallel cfgC2 envFail404 5).recorded = [] := by
  refine ⟨rfl, by decide, by decide, by decide⟩

/-- C8 (amended): per-URL failure handling of `process_url`.  A transport
error (a raised exception) is caught, logged to stderr and is terminal: the
state changes only by the fetch attempt and the log line.  A non-200
response is terminal but silent: the state changes only by the fetch
attempt — no log, no retry, no record.  In both cases `process_url` returns
normally, so one failing URL never aborts the worker loop. -/
theorem c8_amended :
    (∀ (cfg : CrawlConfig) (env : Env) (domain url : String) (s : CrawlState),
        (is_valid_url env url && is_under_root_urls cfg.baseUrls url) = true →
        env.fetch url = none →
        process_url cfg env domain url s =
          { s with fetched := s.fetched ++ [url], errors := s.errors ++ [url] })
      ∧ (∀ (cfg : CrawlConfig) (env : Env) (domain url : String) (s : CrawlState)
          (status : Nat) (links : List String),
          (is_valid_url env url && is_under_root_urls cfg.baseUrls url) = true →
          env.fetch url = some (status, links) → status ≠ 200 →
          process_url cfg env domain url s = { s with fetched := s.fetched ++ [url] }) := by
  constructor
  · intro cfg env domain url s hval hfetch
    simp [process_url, hval, hfetch]
  · intro cfg env domain url s status links hval hfetch hstat
    simp [process_url, hval, hfetch, hstat]

/-- C8 (witness): the amended theorem applied to the root URL with a
transport-error environment and with a 500 environment. -/
theorem c8_witness :
    (process_url cfgC2 envTransErr "h" urlR stW =
        { stW with fetched := stW.fetched ++ [urlR], errors := stW.errors ++ [urlR] })
      ∧ (process_url cfgC2 envFail500 "h" urlR stW =
        { stW with fetched := stW.fetched ++ [urlR] }) :=
  ⟨c8_amended.1 cfgC2 envTransErr "h" urlR stW (by decide) rfl,
   c8_amended.2 cfgC2 envFail500 "h" urlR stW 500 [] (by decide) rfl (by decide)⟩

/-- C9: a run that records zero URLs still leaves the complete V1 file
frame — the XML declaration, the `urlset` opening tag and the closing
footer, with no `url` child element anywhere in the file. -/
theorem c9_empty_run_well_formed (cfg : CrawlConfig) (env : Env) (fuel : Nat)
    (today : String) (h : (crawl_parallel cfg env fuel).recorded = []) :
    sitemap_file_v1 today (crawl_parallel cfg env fuel).recorded =
        xmlDecl ++ urlsetOpen ++ urlsetClose
      ∧ occursIn "<url>".data
          (sitemap_file_v1 today (crawl_parallel cfg env fuel).recorded).data = false := by
  rw [h]
  exact ⟨rfl, rfl⟩

/-- C9 (witness): the empty-run theorem applied to a crawl whose only root
fetch returns HTTP 500, so nothing is recorded. -/
theorem c9_witness :
    sitemap_file_v1 "2026-10-12" (crawl_parallel cfgC2 envFail500 5).recorded =
        xmlDecl ++ urlsetOpen ++ urlsetClose
      ∧ occursIn "<url>".data
          (sitemap_file_v1 "2026-10-12" (crawl_parallel cfgC2 envFail500 5).recorded).data
          = false :=
  c9_empty_run_well_formed cfgC2 envFail500 5 "2026-10-12" (by decide)

/-- The C10 invariant: in non-recursive mode the frontier and the set of
attempted fetches stay within the base URLs, and every visited URL is either
a base URL or has already been recorded. -/
def Inv (base : List String) (s : CrawlState) : Prop :=
  s.queue ⊆ base ∧ s.fetched ⊆ base ∧ ∀ u ∈ s.visited, u ∈ base ∨ u ∈ s.recorded

lemma process_found_link_inv (cfg : CrawlConfig) (s : CrawlState) (full_url : String)
    (hrec : cfg.recursive = false) (hs : Inv cfg.baseUrls s) :
    Inv cfg.baseUrls (process_found_link cfg s full_url) := by
  unfold process_found_link
  split
  · exact hs
  · obtain ⟨hq, hf, hv⟩ := hs
    refine ⟨?_, hf, ?_⟩
    · simpa [hrec] using hq
    · intro u hu
      rcases List.mem_cons.mp hu with rfl | hu
      · exact Or.inr (List.mem_append_right _ (List.mem_singleton_self u))
      · rcases hv u hu with h | h
        · exact Or.inl h
        · exact Or.inr (List.mem_append_left _ h)

lemma process_links_inv (cfg : CrawlConfig) (env : Env) (domain pageUrl : String)
    (hrec : cfg.recursive = false) :
    ∀ (links : List String) (s : CrawlState), Inv cfg.baseUrls s →
      Inv cfg.baseUrls (process_links cfg env domain pageUrl links s)
  | [], _, hs => hs
  | href :: rest, s, hs => by
    rw [process_links]
    split
    · exact process_links_inv cfg env domain pageUrl hrec rest s hs
    · apply process_links_inv cfg env domain pageUrl hrec rest
      split
      · exact process_found_link_inv cfg s _ hrec hs
      · exact hs

lemma process_url_inv (cfg : CrawlConfig) (env : Env) (domain url : String)
    (s : CrawlState) (hrec : cfg.recursive = false) (hurl : url ∈ cfg.baseUrls)
    (hs : Inv cfg.baseUrls s) :
    Inv cfg.baseUrls (process_url cfg env domain url s) := by
  have hs1 : Inv cfg.baseUrls { s with fetched := s.fetched ++ [url] } := by
    obtain ⟨hq, hf, hv⟩ := hs
    refine ⟨hq, ?_, hv⟩
    intro u hu
    rcases List.mem_append.mp hu with hu | hu
    · exact hf hu
    · rwa [List.mem_singleton.mp hu]
  have hs2 : Inv cfg.baseUrls
      { s with fetched := s.fetched ++ [url],
               recorded := s.recorded ++ [url] } := by
    obtain ⟨hq, hf, hv⟩ := hs1
    refine ⟨hq, hf, ?_⟩
    intro u hu
    rcases hv u hu with h | h
    · exact Or.inl h
    · exact Or.inr (List.mem_append_left _ h)
  unfold process_url
  split
  · exact hs
  · split
    · exact hs1
    · split
      · exact hs1
      · split
        · exact process_links_inv cfg env domain url hrec _ _ hs2
        · exact hs2

lemma crawl_loop_inv (cfg : CrawlConfig) (env : Env) (domain : String)
    (hrec : cfg.recursive = false) :
    ∀ (fuel : Nat) (s : CrawlState), Inv cfg.baseUrls s →
      Inv cfg.baseUrls (crawl_loop cfg env domain fuel s) := by
  intro fuel
  induction fuel with
  | zero => intro s hs; exact hs
  | succ n ih =>
    intro s hs
    rw [crawl_loop]
    split
    · exact hs
    · rename_i url rest heq
      have hurl : url ∈ cfg.baseUrls := hs.1 (heq ▸ List.mem_cons_self url rest)
      have hpop : Inv cfg.baseUrls { s with queue := rest } :=
        ⟨fun u hu => hs.1 (heq ▸ List.mem_cons_of_mem url hu), hs.2.1, hs.2.2⟩
      exact ih _ (process_url_inv cfg env domain url _ hrec hurl hpop)

/-- C10: in non-recursive mode, at every point of the run (that is, for
every fuel bound) the frontier queue contains only base URLs, a fetch is
only ever attempted on a base URL, and every visited URL is a base URL or
has been recorded — so a non-root URL passing the filters is recorded at
discovery without ever being enqueued or fetched. -/
theorem c10_nonrecursive_frontier_roots (cfg : CrawlConfig) (env : Env)
    (fuel : Nat) (h : cfg.recursive = false) :
    (crawl_parallel cfg env fuel).queue ⊆ cfg.baseUrls
      ∧ (crawl_parallel cfg env fuel).fetched ⊆ cfg.baseUrls
      ∧ ∀ u ∈ (crawl_parallel cfg env fuel).visited,
          u ∈ cfg.baseUrls ∨ u ∈ (crawl_parallel cfg env fuel).recorded := by
  have hinit : Inv cfg.baseUrls
      { visited := cfg.baseUrls, queue := cfg.baseUrls,
        recorded := [], errors := [], fetched := [] } :=
    ⟨fun _ hu => hu, fun _ hu => absurd hu (List.not_mem_nil _), fun _ hu => Or.inl hu⟩
  exact crawl_loop_inv cfg env (env.netloc (cfg.baseUrls.headD "")) h fuel _ hinit

/-- Environment for the unfetched-record scenario: the root links to page A
and any fetch of A would raise a transport error. -/
def envC10 : Env :=
  { fetch := fun u => if u = urlR then some (200, [urlA]) else none
    scheme := fun _ => "http"
    netloc := fun _ => "h"
    urljoin := fun _ href => href }

/-- C10 (witness): the invariant instantiated on a concrete non-recursive
run, where the discovered page A is recorded although its fetch — which
would have failed — is never attempted. -/
theorem c10_witness :
    (crawl_parallel cfgC2 envC10 5).queue ⊆ cfgC2.baseUrls
      ∧ (crawl_parallel cfgC2 envC10 5).fetched ⊆ cfgC2.baseUrls
      ∧ (crawl_parallel cfgC2 envC10 5).recorded = [urlR, urlA]
      ∧ urlA ∉ (crawl_parallel cfgC2 envC10 5).fetched
      ∧ envC10.fetch urlA = none
      ∧ urlA ∉ cfgC2.baseUrls :=
  ⟨(c10_nonrecursive_frontier_roots cfgC2 envC10 5 rfl).1,
   (c10_nonrecursive_frontier_roots cfgC2 envC10 5 rfl).2.1,
   by decide, by decide, by decide, by decide⟩

end SitemapGen
